import Mathlib

/-!
Shallow embedding of the Observability-Sandbox demo service.

The repository contains two variants of the same Go HTTP service:
* the richer variant (`src/app/main.go`): `workHandler` opens two child
  spans ("simulate_work", "db_cache_lookup"), sleeps twice
  (`rand.Intn(400)` ms and `rand.Intn(200)` ms), emits a structured
  outcome log entry (ERROR on simulated failure, INFO otherwise) with
  fields trace_id, span_id, latency_ms, status, writes the HTTP
  response, and finally records a Prometheus histogram observation,
  attaching a trace-id exemplar when the observer supports it;
* the simpler variant (`src/unnamed/part_000`): `workHandler` sleeps
  once (`rand.Intn(500)` ms), prints an unstructured line to stdout and
  writes the HTTP response; it opens no child spans and records no
  histogram observation.

The embedding turns each handler into a pure function from the values
produced by the process-wide pseudo-random source (and the request
context bound by the tracing middleware) to the list of observable
events the handler performs, in program order.  Wall-clock time
advances only at the simulated sleeps, so `time.Since(start)` at the
metric-recording point equals the sum of the two sleeps (in the model,
expressed in seconds as a rational).

`rand.Intn(n)` returns a uniform value in {0, ..., n-1}; the embedding
takes that returned value as an input, with the range constraint as a
hypothesis where a claim needs it.  `rand.Float32()` returns k / 2^24
for a uniform k in {0, ..., 2^24 - 1}; the Go literal `0.2` in the
comparison `rand.Float32() < 0.2` is the float32 value
13421773 / 2^26, which the embedding uses verbatim (a lemma below shows
the comparison agrees with `< 1/5` on every natural k).
-/

namespace ObsSandbox

/-- Log levels of the structured `slog` logger (Info/Warn/Error). -/
inductive Level where
  | info
  | warn
  | error
deriving DecidableEq, Repr

/-- A value carried by a structured log field. -/
inductive FieldVal where
  | str (s : String)
  | int (n : Int)
  | rat (q : ℚ)
  | bool (b : Bool)
deriving DecidableEq, Repr

/-- One structured log entry: level, message, and ordered key/value fields.
`slog`'s own timestamp is not modelled; no claim mentions it. -/
structure LogEntry where
  level : Level
  msg : String
  fields : List (String × FieldVal)
deriving DecidableEq, Repr

/-- One histogram observation: the (method, status) label pair selecting
the child observer, the observed value in seconds, and the optional
exemplar labels (here at most the trace id). -/
structure Obs where
  method : String
  status : Nat
  value : ℚ
  exemplar : Option String
deriving DecidableEq, Repr

/-- The observable actions a handler performs, in program order. -/
inductive Event where
  | startSpan (name : String)
  | endSpan (name : String)
  | sleep (ms : Nat)
  | logEmit (entry : LogEntry)
  | printLine (s : String)
  | respond (status : Nat) (body : String)
  | observe (o : Obs)
deriving DecidableEq, Repr

/-- The float32 value of the Go literal `0.2` (= 13421773 / 2^26). -/
def float32PointTwo : ℚ := 13421773 / 2 ^ 26

/-- Value of `rand.Float32()` when the underlying 24-bit draw is `k`. -/
def randFloat32 (k : ℕ) : ℚ := (k % 2 ^ 24 : ℕ) / 2 ^ 24

/-- The failure draw `rand.Float32() < 0.2` with 24-bit draw `k`. -/
def failDraw (k : ℕ) : Bool := decide (randFloat32 k < float32PointTwo)

/-- The HTTP status the handlers pick from the failure draw:
500 on simulated failure, 200 otherwise. -/
def statusOfDraw (k : ℕ) : Nat := if failDraw k then 500 else 200

/-- Inputs of one run of the richer variant's `workHandler`
(src/app/main.go:123): the three pseudo-random draws, the trace/span
ids bound on the request context by the `otelhttp` middleware, the
request method, and whether the histogram observer supports exemplar
attachment (the `ok` of the type assertion on line 169). -/
structure WorkInput where
  latN : ℕ        -- value returned by rand.Intn(400), milliseconds
  cacheN : ℕ      -- value returned by rand.Intn(200), milliseconds
  failK : ℕ       -- 24-bit draw behind rand.Float32()
  traceID : String
  spanID : String
  method : String
  exemplarOk : Bool
deriving DecidableEq, Repr

/-- The richer variant's `workHandler` (src/app/main.go:123-176) as the
list of events it performs, in program order. -/
def workHandler (inp : WorkInput) : List Event :=
  let latency := inp.latN
  let status := statusOfDraw inp.failK
  let baseFields : List (String × FieldVal) :=
    [("trace_id", .str inp.traceID), ("span_id", .str inp.spanID)]
  let duration : ℚ := (latency + inp.cacheN : ℕ) / 1000
  [Event.startSpan "simulate_work",
   Event.sleep latency,
   Event.endSpan "simulate_work",
   Event.startSpan "db_cache_lookup",
   Event.sleep inp.cacheN,
   Event.endSpan "db_cache_lookup"] ++
  (if failDraw inp.failK then
    [Event.logEmit ⟨.error, "request failed",
       baseFields ++ [("latency_ms", .int latency), ("status", .int 500)]⟩,
     Event.respond 500 "Internal Server Error\n"]
   else
    [Event.logEmit ⟨.info, "request succeeded",
       baseFields ++ [("latency_ms", .int latency), ("status", .int 200)]⟩,
     Event.respond 200 "Work completed\n"]) ++
  (if inp.exemplarOk && !(inp.traceID == "") then
    [Event.logEmit ⟨.info, "Attaching exemplar",
       baseFields ++ [("traceID", .str inp.traceID), ("duration", .rat duration)]⟩,
     Event.observe ⟨inp.method, status, duration, some inp.traceID⟩]
   else
    [Event.logEmit ⟨.warn, "Exemplar not supported or traceID empty",
       baseFields ++ [("traceID", .str inp.traceID), ("ok", .bool inp.exemplarOk)]⟩,
     Event.observe ⟨inp.method, status, duration, none⟩])

/-- The `healthzHandler` (identical in both variants): 200 with body "OK". -/
def healthzHandler : List Event :=
  [Event.respond 200 "OK"]

/-- Inputs of one run of the simpler variant's `workHandler`
(src/unnamed/part_000:98-112): the latency draw and the failure draw. -/
structure SimpleInput where
  latN : ℕ        -- value returned by rand.Intn(500), milliseconds
  failK : ℕ       -- 24-bit draw behind rand.Float32()
deriving DecidableEq, Repr

/-- The simpler variant's `workHandler` as the list of events it
performs.  `fmt.Printf`'s `%v` duration formatting is abstracted to the
millisecond count. -/
def workHandlerSimple (inp : SimpleInput) : List Event :=
  let latency := inp.latN
  [Event.sleep latency] ++
  (if failDraw inp.failK then
    [Event.printLine ("ERROR: Request failed after " ++ toString latency ++ "ms"),
     Event.respond 500 "Internal Server Error\n"]
   else
    [Event.printLine ("SUCCESS: Request completed in " ++ toString latency ++ "ms"),
     Event.respond 200 "Work completed\n"])

/-! ### Projections of an event list -/

/-- All structured log entries emitted, in order. -/
def emittedLogs (evs : List Event) : List LogEntry :=
  evs.filterMap fun e => match e with
    | .logEmit l => some l
    | _ => none

/-- All histogram observations recorded, in order. -/
def emittedObs (evs : List Event) : List Obs :=
  evs.filterMap fun e => match e with
    | .observe o => some o
    | _ => none

/-- All HTTP (status, body) responses written, in order. -/
def responses (evs : List Event) : List (Nat × String) :=
  evs.filterMap fun e => match e with
    | .respond s b => some (s, b)
    | _ => none

/-- The span open/close trace: `(true, n)` for a start of span `n`,
`(false, n)` for an end. -/
def spanTrace (evs : List Event) : List (Bool × String) :=
  evs.filterMap fun e => match e with
    | .startSpan n => some (true, n)
    | .endSpan n => some (false, n)
    | _ => none

/-- Names of the child spans started, in order. -/
def startedSpanNames (evs : List Event) : List String :=
  evs.filterMap fun e => match e with
    | .startSpan n => some n
    | _ => none

/-- Names of the child spans ended, in order. -/
def endedSpanNames (evs : List Event) : List String :=
  evs.filterMap fun e => match e with
    | .endSpan n => some n
    | _ => none

/-- The unstructured stdout lines printed (the simpler variant's
`fmt.Printf` output), in order. -/
def printedLines (evs : List Event) : List String :=
  evs.filterMap fun e => match e with
    | .printLine s => some s
    | _ => none

/-- The millisecond amounts of the sleeps performed, in order. -/
def sleepsMs (evs : List Event) : List ℕ :=
  evs.filterMap fun e => match e with
    | .sleep ms => some ms
    | _ => none

/-- Total simulated blocking time of the handler, in milliseconds. -/
def totalSleepMs (evs : List Event) : ℕ :=
  (sleepsMs evs).sum

/-- Runs the span open/close trace against a stack of currently open
span names: every end must close the most recently started unfinished
span, and at the end of the request the stack must be empty.  Returns
`true` exactly when the trace is balanced and strictly LIFO. -/
def lifoCheck : List (Bool × String) → List String → Bool
  | [], stack => stack.isEmpty
  | (true, n) :: rest, stack => lifoCheck rest (n :: stack)
  | (false, _) :: _, [] => false
  | (false, n) :: rest, top :: stack => top == n && lifoCheck rest stack

/-- The fixed field-name signature of the outcome log entry written by
the Log Correlator: trace_id, span_id, latency_ms, status. -/
def isOutcomeEntry (l : LogEntry) : Bool :=
  l.fields.map Prod.fst == ["trace_id", "span_id", "latency_ms", "status"]

/-- The outcome log entries among the events (the Log Correlator's
emissions, distinguished by their exact field-name signature). -/
def outcomeEntries (evs : List Event) : List LogEntry :=
  (emittedLogs evs).filter isOutcomeEntry

/-- Whether the event is an HTTP response write. -/
def isRespondEv : Event → Bool
  | .respond _ _ => true
  | _ => false

/-- Whether the event is a histogram observation. -/
def isObserveEv : Event → Bool
  | .observe _ => true
  | _ => false

/-- Whether the event emits an outcome log entry. -/
def isOutcomeLogEv : Event → Bool
  | .logEmit l => isOutcomeEntry l
  | _ => false

/-- `occursBefore p q evs` holds when the first `p`-event of `evs`
exists and is followed (strictly later) by some `q`-event. -/
def occursBefore (p q : Event → Bool) : List Event → Bool
  | [] => false
  | e :: rest => if p e then rest.any q else occursBefore p q rest

/-! ### The process-wide histogram state -/

/-- Bucket-count state of the `http_request_duration_seconds` histogram
vector, projected to the per-(method, status) observation counts. -/
def Hist : Type := String × Nat → ℕ

/-- Recording one observation increments the count of its label pair
(both `Observe` and `ObserveWithExemplar` count the sample). -/
def recordObs (h : Hist) (o : Obs) : Hist :=
  fun p => if p = (o.method, o.status) then h p + 1 else h p

/-- Folding a handler run into the histogram state. -/
def runHist (h : Hist) (evs : List Event) : Hist :=
  evs.foldl (fun acc e => match e with
    | .observe o => recordObs acc o
    | _ => acc) h

/-! ### Claims -/

/-- Evaluating the failure draw at the zero 24-bit draw: 0 < 0.2, so
the run fails. -/
theorem failDraw_zero : failDraw 0 = true := by
  norm_num [failDraw, randFloat32, float32PointTwo]

/-- Evaluating the failure draw at the half-way 24-bit draw 2^23:
0.5 ≥ 0.2, so the run succeeds. -/
theorem failDraw_half : failDraw (2 ^ 23) = false := by
  norm_num [failDraw, randFloat32, float32PointTwo]

/-- C2: every run of the `workHandler` of either variant writes
exactly one HTTP response, either 200 with body "Work completed\n" or
500 with body "Internal Server Error\n"; `healthzHandler` always
writes 200 "OK". -/
theorem work_single_response (inp : WorkInput) (sinp : SimpleInput) :
    (responses (workHandler inp) = [(200, "Work completed\n")] ∨
      responses (workHandler inp) = [(500, "Internal Server Error\n")]) ∧
    (responses (workHandlerSimple sinp) = [(200, "Work completed\n")] ∨
      responses (workHandlerSimple sinp) = [(500, "Internal Server Error\n")]) ∧
    responses healthzHandler = [(200, "OK")] := by
  refine ⟨?_, ?_, rfl⟩
  · cases hf : failDraw inp.failK <;>
      cases he : inp.exemplarOk && !(inp.traceID == "") <;>
        simp [workHandler, responses, hf, he]
  · cases hf : failDraw sinp.failK <;>
      simp [workHandlerSimple, responses, hf]

/-- C5: within one run of the richer `workHandler`, span ends equal
span starts in number, and the open/close trace is strictly LIFO
(every end closes the most recently started unfinished span, and no
span is left open). -/
theorem span_calls_balanced_lifo (inp : WorkInput) :
    (startedSpanNames (workHandler inp)).length =
      (endedSpanNames (workHandler inp)).length ∧
    lifoCheck (spanTrace (workHandler inp)) [] = true := by
  have hs : spanTrace (workHandler inp) =
      [(true, "simulate_work"), (false, "simulate_work"),
       (true, "db_cache_lookup"), (false, "db_cache_lookup")] := by
    cases hf : failDraw inp.failK <;>
      cases he : inp.exemplarOk && !(inp.traceID == "") <;>
        simp [workHandler, spanTrace, hf, he]
  have h1 : startedSpanNames (workHandler inp) =
      ["simulate_work", "db_cache_lookup"] := by
    cases hf : failDraw inp.failK <;>
      cases he : inp.exemplarOk && !(inp.traceID == "") <;>
        simp [workHandler, startedSpanNames, hf, he]
  have h2 : endedSpanNames (workHandler inp) =
      ["simulate_work", "db_cache_lookup"] := by
    cases hf : failDraw inp.failK <;>
      cases he : inp.exemplarOk && !(inp.traceID == "") <;>
        simp [workHandler, endedSpanNames, hf, he]
  rw [hs, h1, h2]
  exact ⟨rfl, by decide⟩

/-- C9 counterexample: the simpler variant's `workHandler`
(src/unnamed/part_000:98-112) opens no child span at all, so the claim
that every /work request opens exactly two named child spans fails on
it (concrete run: latency draw 100 ms, failure draw 0). -/
theorem simple_variant_opens_no_child_spans :
    ¬ (startedSpanNames (workHandlerSimple ⟨100, 0⟩)).length = 2 := by
  simp [workHandlerSimple, startedSpanNames, failDraw_zero]

/-- C9 amended: every run of the richer variant's `workHandler` opens
and closes exactly the two child spans "simulate_work" and
"db_cache_lookup" (in that order), while the simpler variant's
`workHandler` opens no child span. -/
theorem work_two_named_child_spans (inp : WorkInput) (sinp : SimpleInput) :
    startedSpanNames (workHandler inp) = ["simulate_work", "db_cache_lookup"] ∧
    endedSpanNames (workHandler inp) = ["simulate_work", "db_cache_lookup"] ∧
    startedSpanNames (workHandlerSimple sinp) = [] := by
  refine ⟨?_, ?_, ?_⟩
  · cases hf : failDraw inp.failK <;>
      cases he : inp.exemplarOk && !(inp.traceID == "") <;>
        simp [workHandler, startedSpanNames, hf, he]
  · cases hf : failDraw inp.failK <;>
      cases he : inp.exemplarOk && !(inp.traceID == "") <;>
        simp [workHandler, endedSpanNames, hf, he]
  · cases hf : failDraw sinp.failK <;>
      simp [workHandlerSimple, startedSpanNames, hf]

/-- C6 counterexample: in the richer variant the handler does not block
for the drawn latency alone — a second sleep (the "db_cache_lookup"
delay) adds to it.  Concrete run: latency draw 150 ms, cache draw
100 ms, so the handler blocks 250 ms, not 150 ms. -/
theorem work_blocks_longer_than_latency :
    ¬ totalSleepMs (workHandler ⟨150, 100, 0, "t", "s", "GET", true⟩) = 150 := by
  simp [workHandler, totalSleepMs, sleepsMs, failDraw_zero]

/-- C6 amended: the richer variant draws its latency from
{0, ..., 399} ms and blocks for it plus a second delay drawn from
{0, ..., 199} ms; the simpler variant draws from {0, ..., 499} ms and
blocks for exactly that latency with no other delay. -/
theorem work_sleep_amounts (inp : WorkInput) (sinp : SimpleInput)
    (h1 : inp.latN < 400) (h2 : inp.cacheN < 200) (h3 : sinp.latN < 500) :
    sleepsMs (workHandler inp) = [inp.latN, inp.cacheN] ∧
    totalSleepMs (workHandler inp) = inp.latN + inp.cacheN ∧
    inp.latN ≤ 399 ∧ inp.cacheN ≤ 199 ∧
    sleepsMs (workHandlerSimple sinp) = [sinp.latN] ∧
    totalSleepMs (workHandlerSimple sinp) = sinp.latN ∧ sinp.latN ≤ 499 := by
  have hw : sleepsMs (workHandler inp) = [inp.latN, inp.cacheN] := by
    cases hf : failDraw inp.failK <;>
      cases he : inp.exemplarOk && !(inp.traceID == "") <;>
        simp [workHandler, sleepsMs, hf, he]
  have hsimp : sleepsMs (workHandlerSimple sinp) = [sinp.latN] := by
    cases hf : failDraw sinp.failK <;>
      simp [workHandlerSimple, sleepsMs, hf]
  refine ⟨hw, ?_, by omega, by omega, hsimp, ?_, by omega⟩
  · rw [totalSleepMs, hw]; simp
  · rw [totalSleepMs, hsimp]; simp

/-- Helper: every run of the richer `workHandler` has exactly one log
entry with the outcome field signature, and it is the one written in
the if/else on src/app/main.go:147-162. -/
theorem outcomeEntries_workHandler (inp : WorkInput) :
    outcomeEntries (workHandler inp) =
      [⟨if failDraw inp.failK then Level.error else Level.info,
        if failDraw inp.failK then "request failed" else "request succeeded",
        [("trace_id", FieldVal.str inp.traceID),
         ("span_id", FieldVal.str inp.spanID),
         ("latency_ms", FieldVal.int inp.latN),
         ("status", FieldVal.int (if failDraw inp.failK then 500 else 200))]⟩] := by
  cases hf : failDraw inp.failK <;>
    cases he : inp.exemplarOk && !(inp.traceID == "") <;>
      simp [workHandler, outcomeEntries, emittedLogs, isOutcomeEntry, hf, he]

/-- C4 counterexample: the richer `workHandler` writes the HTTP
response (src/app/main.go:154/161) before recording the histogram
observation (src/app/main.go:164-175), so on a concrete run (draws
150 ms / 100 ms / 0) the observation does not precede the response. -/
theorem observe_not_before_response :
    ¬ occursBefore isObserveEv isRespondEv
        (workHandler ⟨150, 100, 0, "t", "s", "GET", true⟩) = true := by
  simp [workHandler, occursBefore, isObserveEv, isRespondEv, failDraw_zero,
    List.any]

/-- C4 amended: in every run of the richer `workHandler`, the outcome
log emission completes before the HTTP response is written, but the
histogram observation is recorded only after the response is written. -/
theorem log_before_response_before_observe (inp : WorkInput) :
    occursBefore isOutcomeLogEv isRespondEv (workHandler inp) = true ∧
    occursBefore isRespondEv isObserveEv (workHandler inp) = true := by
  cases hf : failDraw inp.failK <;>
    cases he : inp.exemplarOk && !(inp.traceID == "") <;>
      simp [workHandler, occursBefore, isOutcomeLogEv, isRespondEv,
        isObserveEv, isOutcomeEntry, hf, he, List.any]

/-- C1: when exemplar support is present (and the trace id is
non-empty), the trace id in the single outcome log entry and the trace
id attached as the exemplar of the single histogram observation are
both the request's trace id, hence equal. -/
theorem log_trace_id_eq_exemplar_trace_id (inp : WorkInput)
    (h1 : inp.exemplarOk = true) (h2 : inp.traceID ≠ "") :
    ∃ l o, outcomeEntries (workHandler inp) = [l] ∧
      emittedObs (workHandler inp) = [o] ∧
      l.fields.lookup "trace_id" = some (FieldVal.str inp.traceID) ∧
      o.exemplar = some inp.traceID := by
  have he : (inp.exemplarOk && !(inp.traceID == "")) = true := by
    simp [h1, h2]
  have hobs : emittedObs (workHandler inp) =
      [⟨inp.method, statusOfDraw inp.failK,
        ((inp.latN + inp.cacheN : ℕ) : ℚ) / 1000, some inp.traceID⟩] := by
    cases hf : failDraw inp.failK <;>
      simp [workHandler, emittedObs, hf, he]
  exact ⟨_, _, outcomeEntries_workHandler inp, hobs, by simp [List.lookup], rfl⟩

/-- C1 witness: the trace-id identity at a concrete run (draws 150 ms,
100 ms, failure draw 2^23, trace id "abc"). -/
theorem log_trace_id_eq_exemplar_trace_id_witness :
    ∃ l o,
      outcomeEntries (workHandler ⟨150, 100, 2 ^ 23, "abc", "def", "GET", true⟩) = [l] ∧
      emittedObs (workHandler ⟨150, 100, 2 ^ 23, "abc", "def", "GET", true⟩) = [o] ∧
      l.fields.lookup "trace_id" = some (FieldVal.str "abc") ∧
      o.exemplar = some "abc" :=
  log_trace_id_eq_exemplar_trace_id ⟨150, 100, 2 ^ 23, "abc", "def", "GET", true⟩
    rfl (by simp)

/-- C3 counterexample: the simpler variant's `workHandler`
(src/unnamed/part_000:98-112) never emits a structured log entry — it
only prints an unstructured line with `fmt.Printf` — so on a concrete
run (latency draw 100 ms, failure draw 0) it does not emit exactly one
structured outcome entry. -/
theorem simple_variant_no_structured_log :
    emittedLogs (workHandlerSimple ⟨100, 0⟩) = [] ∧
    ¬ (outcomeEntries (workHandlerSimple ⟨100, 0⟩)).length = 1 := by
  have h : emittedLogs (workHandlerSimple ⟨100, 0⟩) = [] := by
    simp [workHandlerSimple, emittedLogs, failDraw_zero]
  exact ⟨h, by simp [outcomeEntries, h]⟩

/-- C3 amended: every run of the richer variant's `workHandler` emits
exactly one log entry with the outcome field signature trace_id,
span_id, latency_ms, status, at level ERROR exactly when the simulated
outcome is a failure (status 500) and INFO otherwise; the simpler
variant's `workHandler` emits no structured log entry at all. -/
theorem one_outcome_log_entry (inp : WorkInput) (sinp : SimpleInput) :
    (∃ l, outcomeEntries (workHandler inp) = [l] ∧
      l.fields.map Prod.fst = ["trace_id", "span_id", "latency_ms", "status"] ∧
      l.level = (if statusOfDraw inp.failK = 500 then Level.error else Level.info)) ∧
    emittedLogs (workHandlerSimple sinp) = [] := by
  constructor
  · refine ⟨_, outcomeEntries_workHandler inp, by simp, ?_⟩
    cases hf : failDraw inp.failK <;> simp [statusOfDraw, hf]
  · cases hf : failDraw sinp.failK <;>
      simp [workHandlerSimple, emittedLogs, hf]

/-- C6 witness: the amended sleep statement at a concrete run
(richer: draws 150 and 100 ms; simpler: draw 250 ms). -/
theorem work_sleep_amounts_witness :
    sleepsMs (workHandler ⟨150, 100, 0, "t", "s", "GET", true⟩) = [150, 100] ∧
    totalSleepMs (workHandler ⟨150, 100, 0, "t", "s", "GET", true⟩) = 250 ∧
    (150 : ℕ) ≤ 399 ∧ (100 : ℕ) ≤ 199 ∧
    sleepsMs (workHandlerSimple ⟨250, 0⟩) = [250] ∧
    totalSleepMs (workHandlerSimple ⟨250, 0⟩) = 250 ∧ (250 : ℕ) ≤ 499 :=
  work_sleep_amounts ⟨150, 100, 0, "t", "s", "GET", true⟩ ⟨250, 0⟩
    (by decide) (by decide) (by decide)

/-- Helper: comparing a `rand.Float32()` value (a multiple of 2^-24)
against the float32 constant 13421773/2^26 decides exactly as comparing
against 1/5 — both say the 24-bit draw is at most 3355443. -/
theorem randFloat32_lt_pointTwo_iff (k : ℕ) :
    randFloat32 k < float32PointTwo ↔ randFloat32 k < 1 / 5 := by
  unfold randFloat32 float32PointTwo
  rw [div_lt_div_iff₀ (by norm_num) (by norm_num),
    div_lt_div_iff₀ (by norm_num) (by norm_num)]
  have h1 : ((k % 2 ^ 24 : ℕ) : ℚ) * 2 ^ 26 < 13421773 * 2 ^ 24 ↔
      (k % 2 ^ 24) * 2 ^ 26 < 13421773 * 2 ^ 24 := by
    exact_mod_cast Iff.rfl
  have h2 : ((k % 2 ^ 24 : ℕ) : ℚ) * 5 < 1 * 2 ^ 24 ↔
      (k % 2 ^ 24) * 5 < 1 * 2 ^ 24 := by
    exact_mod_cast Iff.rfl
  rw [h1, h2]
  constructor <;> intro h <;> omega

/-- C7: the richer `workHandler` fails exactly when the pseudo-random
draw is below 0.2 (the float32 comparison agrees with `< 1/5` on every
draw); a failure is surfaced as the single HTTP 500 response together
with the single ERROR-level outcome log entry, a success as the single
HTTP 200 response with an INFO entry — the handler always completes
with exactly one response, never an exception.  In the simpler variant
the same draw decides the single 500/200 response, with a stdout line
marked ERROR/SUCCESS accordingly. -/
theorem failure_draw_and_surfacing (inp : WorkInput) (sinp : SimpleInput) :
    (failDraw inp.failK = true ↔ randFloat32 inp.failK < 1 / 5) ∧
    responses (workHandler inp) =
      [if failDraw inp.failK then (500, "Internal Server Error\n")
       else (200, "Work completed\n")] ∧
    (∃ l, outcomeEntries (workHandler inp) = [l] ∧
      l.level = (if failDraw inp.failK then Level.error else Level.info)) ∧
    responses (workHandlerSimple sinp) =
      [if failDraw sinp.failK then (500, "Internal Server Error\n")
       else (200, "Work completed\n")] ∧
    printedLines (workHandlerSimple sinp) =
      [if failDraw sinp.failK then
        "ERROR: Request failed after " ++ toString sinp.latN ++ "ms"
       else "SUCCESS: Request completed in " ++ toString sinp.latN ++ "ms"] := by
  refine ⟨?_, ?_, ⟨_, outcomeEntries_workHandler inp, rfl⟩, ?_, ?_⟩
  · simp only [failDraw, decide_eq_true_eq]
    exact randFloat32_lt_pointTwo_iff inp.failK
  · cases hf : failDraw inp.failK <;>
      cases he : inp.exemplarOk && !(inp.traceID == "") <;>
        simp [workHandler, responses, hf, he]
  · cases hf : failDraw sinp.failK <;>
      simp [workHandlerSimple, responses, hf]
  · cases hf : failDraw sinp.failK <;>
      simp [workHandlerSimple, printedLines, hf]

/-- C8: when the observer does not support exemplar attachment, the
richer `workHandler` still records exactly one (plain, exemplar-free)
histogram observation, and the count for the (method, status) label
pair still increments by one. -/
theorem exemplar_fallback_plain_observation (inp : WorkInput) (h : Hist)
    (hn : inp.exemplarOk = false) :
    emittedObs (workHandler inp) =
      [⟨inp.method, statusOfDraw inp.failK,
        ((inp.latN + inp.cacheN : ℕ) : ℚ) / 1000, none⟩] ∧
    runHist h (workHandler inp) (inp.method, statusOfDraw inp.failK) =
      h (inp.method, statusOfDraw inp.failK) + 1 := by
  have he : (inp.exemplarOk && !(inp.traceID == "")) = false := by simp [hn]
  constructor
  · cases hf : failDraw inp.failK <;>
      simp [workHandler, emittedObs, he, statusOfDraw, hf]
  · cases hf : failDraw inp.failK <;>
      simp [workHandler, runHist, recordObs, he, statusOfDraw, hf]

/-- C8 witness: the exemplar-free fallback at a concrete run (draws
150 ms, 100 ms, failure draw 0, empty histogram state). -/
theorem exemplar_fallback_plain_observation_witness :
    emittedObs (workHandler ⟨150, 100, 0, "t", "s", "GET", false⟩) =
      [⟨"GET", statusOfDraw 0, ((150 + 100 : ℕ) : ℚ) / 1000, none⟩] ∧
    runHist (fun _ => 0) (workHandler ⟨150, 100, 0, "t", "s", "GET", false⟩)
        ("GET", statusOfDraw 0) = 1 :=
  exemplar_fallback_plain_observation ⟨150, 100, 0, "t", "s", "GET", false⟩
    (fun _ => 0) rfl

/-- C10: the latency_ms value in the outcome log entry is only the
first ("simulate_work") delay, while the value of the histogram
observation is the full wall-clock duration including the second
("db_cache_lookup") delay, so whenever the second delay is non-zero
the two values differ. -/
theorem logged_latency_vs_observed_duration (inp : WorkInput)
    (hc : inp.cacheN ≠ 0) :
    (∃ l, outcomeEntries (workHandler inp) = [l] ∧
      l.fields.lookup "latency_ms" = some (FieldVal.int inp.latN)) ∧
    (emittedObs (workHandler inp)).map Obs.value =
      [((inp.latN + inp.cacheN : ℕ) : ℚ) / 1000] ∧
    (inp.latN : ℚ) / 1000 ≠ ((inp.latN + inp.cacheN : ℕ) : ℚ) / 1000 := by
  refine ⟨⟨_, outcomeEntries_workHandler inp, by simp [List.lookup]⟩, ?_, ?_⟩
  · cases hf : failDraw inp.failK <;>
      cases he : inp.exemplarOk && !(inp.traceID == "") <;>
        simp [workHandler, emittedObs, hf, he]
  · intro heq
    rw [div_eq_div_iff (by norm_num) (by norm_num)] at heq
    have h2 : (inp.latN : ℚ) = ((inp.latN + inp.cacheN : ℕ) : ℚ) :=
      mul_right_cancel₀ (by norm_num) heq
    have h3 : inp.latN = inp.latN + inp.cacheN := by exact_mod_cast h2
    omega

/-- C10 witness: logged latency 150 ms versus observed duration
0.25 s at a concrete run (draws 150 ms and 100 ms). -/
theorem logged_latency_vs_observed_duration_witness :
    (∃ l, outcomeEntries (workHandler ⟨150, 100, 0, "t", "s", "GET", true⟩) = [l] ∧
      l.fields.lookup "latency_ms" = some (FieldVal.int 150)) ∧
    (emittedObs (workHandler ⟨150, 100, 0, "t", "s", "GET", true⟩)).map Obs.value =
      [((150 + 100 : ℕ) : ℚ) / 1000] ∧
    ((150 : ℕ) : ℚ) / 1000 ≠ ((150 + 100 : ℕ) : ℚ) / 1000 :=
  logged_latency_vs_observed_duration ⟨150, 100, 0, "t", "s", "GET", true⟩
    (by decide)

end ObsSandbox
